import Mathlib

/-!
Shallow embedding of the xhype hypervisor (akaros/vmm-akaros) in Lean 4,
used to settle the specification claims C1..C10.

Machine integers are modelled as `Nat` with explicit masking (`&&& 0xffffffff`
for `u32`, `&&& 0xff` for `u8`, ...) at the points where the Rust source
performs a truncating cast or wrapping arithmetic.  Fallible code (Rust
`Result`, array-index panics, `debug_assert!` guards) is modelled with
`Option`/`Except`.  Each definition is a direct translation of the Rust
function of the same name; file/line references are given in the doc comments.
-/

set_option maxRecDepth 4000

/-! ## Generic helpers: a memory page modelled as a map from byte offset to
stored value.  The APIC page only ever stores each register at a fixed offset
with a fixed width, so a function update suffices. -/

/-- Pointwise function update: the value of `p` at `off` becomes `v`. -/
def pupd (p : Nat → Nat) (off v : Nat) : Nat → Nat :=
  fun o => if o = off then v else p o

theorem pupd_same (p : Nat → Nat) (off v : Nat) : pupd p off v off = v := by
  simp [pupd]

theorem pupd_other (p : Nat → Nat) (off v o : Nat) (h : o ≠ off) :
    pupd p off v o = p o := by
  simp [pupd, h]

namespace Mach

/-!  `src/xhype/xhype/src/mach.rs` — the host-memory block. -/

/-- `MachVMBlock { start, size }` (mach.rs lines 118-122). -/
structure MachVMBlock where
  start : Nat
  size : Nat

/-- `MachVMBlock::read::<T>(offset, index)` (mach.rs lines 154-158).
The Rust code guards the typed access with
`debug_assert!((index + 1) * size_of::<T>() + offset <= self.size)` and then
reads `size_of::<T>()` bytes at `start + offset + index * size_of::<T>()`.
The guard is modelled as an aborting check (`none` = assertion failure, no
memory access is performed); on success the value read is `mem` applied to the
accessed host-virtual address. -/
def MachVMBlock.read (b : MachVMBlock) (mem : Nat → Nat) (sizeofT offset index : Nat) :
    Option Nat :=
  if (index + 1) * sizeofT + offset ≤ b.size then
    some (mem (b.start + offset + index * sizeofT))
  else
    none

/-- `MachVMBlock::write::<T>(val, offset, index)` (mach.rs lines 146-152),
with the same `debug_assert!` bound; on success it returns the updated host
memory, having stored `val` at `start + offset + index * size_of::<T>()`. -/
def MachVMBlock.write (b : MachVMBlock) (mem : Nat → Nat) (val sizeofT offset index : Nat) :
    Option (Nat → Nat) :=
  if (index + 1) * sizeofT + offset ≤ b.size then
    some (pupd mem (b.start + offset + index * sizeofT) val)
  else
    none

end Mach

/-- Claim C9: for every MemoryBlock `B`, element size, offset and index, every
`read`/`write` that completes (returns rather than aborting on the bound
assertion) satisfies `offset + sizeof(T)*(index+1) ≤ B.size`, and an access
violating this bound aborts without performing any memory access. -/
theorem mach_block_access_bounded (b : Mach.MachVMBlock) (mem : Nat → Nat)
    (val sizeofT offset index : Nat) :
    (∀ v, b.read mem sizeofT offset index = some v →
      offset + sizeofT * (index + 1) ≤ b.size) ∧
    (∀ m, b.write mem val sizeofT offset index = some m →
      offset + sizeofT * (index + 1) ≤ b.size) ∧
    (¬ offset + sizeofT * (index + 1) ≤ b.size →
      b.read mem sizeofT offset index = none ∧
      b.write mem val sizeofT offset index = none) := by
  unfold Mach.MachVMBlock.read Mach.MachVMBlock.write
  have hc : (index + 1) * sizeofT = sizeofT * (index + 1) := Nat.mul_comm _ _
  refine ⟨fun v hv => ?_, fun m hm => ?_, fun hb => ?_⟩
  · by_cases h : (index + 1) * sizeofT + offset ≤ b.size
    · omega
    · simp [h] at hv
  · by_cases h : (index + 1) * sizeofT + offset ≤ b.size
    · omega
    · simp [h] at hm
  · have h : ¬ (index + 1) * sizeofT + offset ≤ b.size := by omega
    simp [h]

/-- Witness for C9 at a concrete block: a block of size 16, element size 4,
offset 2, index 1: the read completes and the bound holds, while index 4
violates the bound and aborts. -/
theorem mach_block_access_bounded_witness :
    (∀ v, (Mach.MachVMBlock.mk 0 16).read (fun _ => 7) 4 2 1 = some v →
      2 + 4 * (1 + 1) ≤ 16) := by
  intro v hv
  exact (mach_block_access_bounded (Mach.MachVMBlock.mk 0 16) (fun _ => 7) 0 4 2 1).1 v hv

namespace Hv

/-!  `src/xhype/xhype/src/hv/mod.rs` — the hypervisor wrapper. -/

/-- `cap2ctrl(cap, ctrl)` (hv/mod.rs lines 142-149):
`low = cap & 0xffffffff`, `high = cap >> 32`, `r = ctrl | low`, with
`debug_assert_eq!(r & high, r)`.  The assertion is modelled as an aborting
guard (`none` = assertion failure). -/
def cap2ctrl (cap ctrl : Nat) : Option Nat :=
  let low := cap &&& 0xffffffff
  let high := cap >>> 32
  let r := ctrl ||| low
  if r &&& high = r then some r else none

/-- Modelled from the spec: `gen_exec_ctrl(cap, one_setting, zero_setting)` is
called from the loaders (linux.rs, multiboot.rs, vthread.rs) but its definition
is absent from `src/` (the `hv` module exports it alongside `cap2ctrl`, the
in-src two-argument resolver it wraps).  Per the spec it "resolves a capability
MSR (low 32 bits: must-be-one; high 32 bits: may-be-one) into a concrete VMCS
control field value, asserting that callers' one-bits are allowed and
zero-bits are not forced".  The resolution is the in-src `cap2ctrl cap one`
(whose assertion checks the one-bits are allowed); the additional assertion
that the zero-bits are not forced is `zero &&& low = 0`. -/
def gen_exec_ctrl (cap one zero : Nat) : Option Nat :=
  let low := cap &&& 0xffffffff
  if zero &&& low = 0 then cap2ctrl cap one else none

end Hv

/-- A number below `2 ^ n` is disjoint from its own `n`-bit complement. -/
theorem land_mask_xor_self {n : Nat} (x : Nat) (hx : x < 2 ^ n) :
    x &&& ((2 ^ n - 1) ^^^ x) = 0 := by
  apply Nat.eq_of_testBit_eq
  intro i
  simp only [Nat.testBit_and, Nat.testBit_xor, Nat.zero_testBit]
  rcases lt_or_ge i n with hi | hi
  · rw [Nat.testBit_two_pow_sub_one]
    cases h : x.testBit i <;> simp [h, hi]
  · have hxi : x.testBit i = false :=
      Nat.testBit_lt_two_pow (lt_of_lt_of_le hx (Nat.pow_le_pow_right (by norm_num) hi))
    simp [hxi]

/-- Bits of `a ||| b` restricted to `b` are exactly `b`. -/
theorem or_land_self (a b : Nat) : (a ||| b) &&& b = b := by
  apply Nat.eq_of_testBit_eq
  intro i
  simp only [Nat.testBit_and, Nat.testBit_or]
  cases a.testBit i <;> cases b.testBit i <;> rfl

/-- Masking with the `n`-bit complement of a disjoint value is the identity. -/
theorem land_mask_xor_of_disjoint {n : Nat} (x z : Nat) (hx : x < 2 ^ n)
    (hz : z &&& x = 0) : x &&& ((2 ^ n - 1) ^^^ z) = x := by
  apply Nat.eq_of_testBit_eq
  intro i
  have hzbit := congrArg (fun w => Nat.testBit w i) hz
  simp only [Nat.testBit_and, Nat.zero_testBit] at hzbit
  simp only [Nat.testBit_and, Nat.testBit_xor]
  rcases lt_or_ge i n with hi | hi
  · rw [Nat.testBit_two_pow_sub_one]
    cases hxi : x.testBit i
    · simp
    · rw [hxi] at hzbit
      simp only [Bool.and_true] at hzbit
      simp [hzbit, hi]
  · have hxi : x.testBit i = false :=
      Nat.testBit_lt_two_pow (lt_of_lt_of_le hx (Nat.pow_le_pow_right (by norm_num) hi))
    simp [hxi]

/-- Claim C8: for every valid `cap` (a 64-bit capability MSR value) and every
`(one, zero)` with `one &&& zero = 0`, a completing
`gen_exec_ctrl cap one zero = some r` satisfies
`r &&& ~(cap >>> 32) = 0` (no bit outside the may-be-one mask) and
`r &&& (cap &&& 0xffffffff) = (cap &&& 0xffffffff) &&& ~zero` (the must-be-one
bits survive and none of them was a requested zero-bit).  Complement is taken
in 64 bits. -/
theorem gen_exec_ctrl_resolves (cap one zero r : Nat)
    (hcap : cap < 2 ^ 64) (hdisj : one &&& zero = 0)
    (h : Hv.gen_exec_ctrl cap one zero = some r) :
    r &&& (0xffffffffffffffff ^^^ (cap >>> 32)) = 0 ∧
    r &&& (cap &&& 0xffffffff) = (cap &&& 0xffffffff) &&& (0xffffffffffffffff ^^^ zero) := by
  unfold Hv.gen_exec_ctrl Hv.cap2ctrl at h
  simp only at h
  by_cases hz : zero &&& (cap &&& 0xffffffff) = 0
  · rw [if_pos hz] at h
    by_cases hr : (one ||| cap &&& 0xffffffff) &&& cap >>> 32 = one ||| cap &&& 0xffffffff
    · rw [if_pos hr] at h
      have hrval : r = one ||| (cap &&& 0xffffffff) := by simpa using h.symm
      have hmask : (0xffffffffffffffff : Nat) = 2 ^ 64 - 1 := by norm_num
      have hhigh : cap >>> 32 < 2 ^ 64 := by
        have hle : cap >>> 32 ≤ cap := by
          rw [Nat.shiftRight_eq_div_pow]
          exact Nat.div_le_self _ _
        omega
      have hlow : cap &&& 0xffffffff < 2 ^ 64 := by
        have h1 : cap &&& 0xffffffff ≤ 0xffffffff := Nat.and_le_right
        omega
      -- part 1: r = r &&& high, and high is disjoint from its complement
      have key1 : (one ||| cap &&& 0xffffffff) &&& (0xffffffffffffffff ^^^ cap >>> 32) = 0 := by
        conv_lhs => rw [← hr]
        rw [Nat.and_assoc, hmask, land_mask_xor_self _ hhigh, Nat.and_zero]
      -- part 2: r &&& low = low, and low is untouched by the disjoint zero-mask
      have key2 : (one ||| cap &&& 0xffffffff) &&& (cap &&& 0xffffffff) =
          (cap &&& 0xffffffff) &&& (0xffffffffffffffff ^^^ zero) := by
        rw [or_land_self, hmask, land_mask_xor_of_disjoint _ _ hlow hz]
      rw [hrval]
      exact ⟨key1, key2⟩
    · rw [if_neg hr] at h
      exact absurd h (by simp)
  · rw [if_neg hz] at h
    exact absurd h (by simp)

/-- Witness for C8 at concrete inputs: capability `0x00000007_00000005`
(must-be-one `0x5`, may-be-one `0x7`), `one = 0x2`, `zero = 0x0`. -/
theorem gen_exec_ctrl_resolves_witness :
    (0x0000000700000005 : Nat) < 2 ^ 64 ∧ (0x2 : Nat) &&& 0x0 = 0 ∧
    Hv.gen_exec_ctrl 0x0000000700000005 0x2 0x0 = some 0x7 ∧
    (0x7 : Nat) &&& (0xffffffffffffffff ^^^ (0x0000000700000005 >>> 32)) = 0 ∧
    (0x7 : Nat) &&& (0x0000000700000005 &&& 0xffffffff) =
      ((0x0000000700000005 : Nat) &&& 0xffffffff) &&& (0xffffffffffffffff ^^^ 0x0) := by
  refine ⟨by norm_num, by decide, by decide, ?_, ?_⟩
  · exact (gen_exec_ctrl_resolves 0x0000000700000005 0x2 0x0 0x7 (by norm_num)
      (by decide) (by decide)).1
  · exact (gen_exec_ctrl_resolves 0x0000000700000005 0x2 0x0 0x7 (by norm_num)
      (by decide) (by decide)).2

namespace Pci

/-!  `src/xhype/xhype/src/pci.rs` — PCI config-address protocol and the
host bridge. -/

/-- `ConfigAddr::enabled` (pci.rs lines 8-10): bit 31 of the `0xCF8` value. -/
def ConfigAddr.enabled (a : Nat) : Bool :=
  a &&& (1 <<< 31) ≠ 0

/-- `ConfigAddr::offset` (pci.rs lines 12-14): low byte of the `0xCF8` value. -/
def ConfigAddr.offset (a : Nat) : Nat :=
  a &&& 0xff

/-- `ConfigAddr::bdf` (pci.rs lines 16-18): bits 8..23 of the `0xCF8` value. -/
def ConfigAddr.bdf (a : Nat) : Nat :=
  (a >>> 8) &&& 0xffff

/-- The host-bridge config array from `HostBridge::new` (pci.rs lines 30-39):
a 16-entry `u32` array with `data[0] = 0x71908086`, `data[1] = 0x02000006`,
`data[2] = 0x06000001`, rest zero. -/
def hostBridgeData : List Nat :=
  [0x71908086, 0x02000006, 0x06000001, 0, 0, 0, 0, 0, 0, 0, 0, 0, 0, 0, 0, 0]

/-- `HostBridge::read` (pci.rs lines 42-44): `self.data[(offset >> 2) as usize]`.
A Rust index beyond the 16-entry array panics; `none` models the panic. -/
def HostBridge.read (data : List Nat) (offset : Nat) : Option Nat :=
  data.get? (offset >>> 2)

/-- `HostBridge::write` (pci.rs lines 46-48):
`self.data[(offset >> 2) as usize] = value`, with `none` modelling the
out-of-bounds index panic. -/
def HostBridge.write (data : List Nat) (offset value : Nat) : Option (List Nat) :=
  if offset >>> 2 < data.length then some (data.set (offset >>> 2) value) else none

/-- `PciBus::read` (pci.rs lines 67-74) for the bus built by `PciBus::new`
(lines 57-65), whose device map holds exactly the host bridge at bdf `0`:
a populated bdf dispatches to the device, an unpopulated one returns
`u32::MAX`.  `none` models a panic inside the device read. -/
def PciBus.read (configAddr : Nat) : Option Nat :=
  if ConfigAddr.bdf configAddr = 0 then
    HostBridge.read hostBridgeData (ConfigAddr.offset configAddr)
  else
    some 0xffffffff

/-- `PciBus::write` (pci.rs lines 76-81) for the bus built by `PciBus::new`:
writes to an unpopulated bdf are dropped; `none` models a panic inside the
device write. -/
def PciBus.write (configAddr value : Nat) : Option (List Nat) :=
  if ConfigAddr.bdf configAddr = 0 then
    HostBridge.write hostBridgeData (ConfigAddr.offset configAddr) value
  else
    some hostBridgeData

end Pci

/-- Claim C10: for every config-address value with the enable bit set,
bdf = 0 (the populated host bridge) and register offset at least `0x40`,
`PciBus::read` and `PciBus::write` panic with an out-of-bounds index (the
16-entry `u32` array is indexed with `offset >> 2`, which ranges up to 63)
instead of returning a value; offsets below `0x40` stay in bounds. -/
theorem pci_config_access_oob (a v : Nat)
    (henabled : Pci.ConfigAddr.enabled a = true)
    (hbdf : Pci.ConfigAddr.bdf a = 0)
    (hoff : 0x40 ≤ Pci.ConfigAddr.offset a) :
    Pci.PciBus.read a = none ∧ Pci.PciBus.write a v = none ∧
    (∀ a', Pci.ConfigAddr.bdf a' = 0 → Pci.ConfigAddr.offset a' < 0x40 →
      Pci.PciBus.read a' ≠ none ∧ Pci.PciBus.write a' v ≠ none) := by
  have hlt : Pci.ConfigAddr.offset a < 0x100 := by
    have : a &&& 0xff ≤ 0xff := Nat.and_le_right
    unfold Pci.ConfigAddr.offset
    omega
  have hidx : 16 ≤ Pci.ConfigAddr.offset a >>> 2 := by
    rw [Nat.shiftRight_eq_div_pow]
    omega
  refine ⟨?_, ?_, ?_⟩
  · unfold Pci.PciBus.read
    rw [if_pos hbdf]
    unfold Pci.HostBridge.read
    apply List.get?_eq_none.mpr
    simpa [Pci.hostBridgeData] using hidx
  · unfold Pci.PciBus.write
    rw [if_pos hbdf]
    unfold Pci.HostBridge.write
    rw [if_neg]
    simp only [Pci.hostBridgeData, List.length]
    omega
  · intro a' hbdf' hoff'
    have hidx' : Pci.ConfigAddr.offset a' >>> 2 < 16 := by
      rw [Nat.shiftRight_eq_div_pow]
      omega
    constructor
    · unfold Pci.PciBus.read
      rw [if_pos hbdf']
      unfold Pci.HostBridge.read
      intro hnone
      rw [List.get?_eq_none] at hnone
      simp only [Pci.hostBridgeData, List.length] at hnone
      omega
    · unfold Pci.PciBus.write
      rw [if_pos hbdf']
      unfold Pci.HostBridge.write
      rw [if_pos]
      · simp
      · simp only [Pci.hostBridgeData, List.length]
        omega

/-- Witness for C10: config-address `0x80000040` (enable bit set, bdf 0,
offset `0x40`): both accesses panic, while offset `0x3c` stays in bounds. -/
theorem pci_config_access_oob_witness :
    Pci.ConfigAddr.enabled 0x80000040 = true ∧
    Pci.ConfigAddr.bdf 0x80000040 = 0 ∧
    0x40 ≤ Pci.ConfigAddr.offset 0x80000040 ∧
    Pci.PciBus.read 0x80000040 = none ∧ Pci.PciBus.write 0x80000040 7 = none := by
  have h := pci_config_access_oob 0x80000040 7 (by decide) (by decide) (by decide)
  exact ⟨by decide, by decide, by decide, h.1, h.2.1⟩

namespace LinuxLoader

/-!  `src/xhype/xhype/src/linux.rs` — the 64-bit Linux loader's setup-header
validation. -/

/-- `XLF_KERNEL_64` (linux.rs line 134). -/
def XLF_KERNEL_64 : Nat := 1 <<< 0

/-- `XLF_CAN_BE_LOADED_ABOVE_4G` (linux.rs line 135). -/
def XLF_CAN_BE_LOADED_ABOVE_4G : Nat := 1 <<< 1

/-- `HDRS` (linux.rs line 125), the "HdrS" magic. -/
def HDRS : Nat := 0x53726448

/-- `MAGIC_AA55` (linux.rs line 126). -/
def MAGIC_AA55 : Nat := 0xaa55

/-- The `SetupHeader` fields consulted by the validation prefix of
`load_linux64` (linux.rs lines 83-123; only the consulted fields are kept). -/
structure SetupHeader where
  setup_sects : Nat        -- u8
  boot_flag : Nat          -- u16
  header : Nat             -- u32
  version : Nat            -- u16
  xloadflags : Nat         -- u16
  relocatable_kernel : Nat -- u8

/-- The magic/version/flags validation prefix of `load_linux64`
(linux.rs lines 162-186), translated check for check; in particular the two
xloadflags tests are the source's `header.xloadflags | XLF_KERNEL_64 == 0`
and `header.xloadflags | XLF_CAN_BE_LOADED_ABOVE_4G == 0`, with bitwise OR
exactly as written there.  `.ok h` means the loader proceeds past these
checks (with `setup_sects` defaulted from 0 to 4) and goes on to construct
the guest threads. -/
def checkKernelHeader (h : SetupHeader) : Except String SetupHeader :=
  let h := if h.setup_sects = 0 then { h with setup_sects := 4 } else h
  if h.boot_flag ≠ MAGIC_AA55 then
    .error "magic number missing: header.boot_flag != 0xaa55"
  else if h.header ≠ HDRS then
    .error "magic number missing: header.header != 0x53726448"
  else if h.version < 0x020c then
    .error "kernel version too old"
  else if h.xloadflags ||| XLF_KERNEL_64 = 0 then
    .error "kernel has no 64-bit entry point"
  else if h.xloadflags ||| XLF_CAN_BE_LOADED_ABOVE_4G = 0 then
    .error "kernel cannot be loaded above 4GiB"
  else if h.relocatable_kernel = 0 then
    .error "kernel is not relocatable"
  else
    .ok h

end LinuxLoader

/-- Claim C3 is false of the code (code bug): a kernel image whose setup
header lacks both `XLF_KERNEL_64` and `XLF_CAN_BE_LOADED_ABOVE_4G`
(`xloadflags = 0`) but passes the other magic/version/relocatable checks is
accepted by `load_linux64`'s validation, because the source tests
`xloadflags | XLF_KERNEL_64 == 0` (bitwise OR, never zero) where its own
error message ("kernel has no 64-bit entry point") and the spec demand
`xloadflags & XLF_KERNEL_64 == 0`.  The claim says this header must be
rejected. -/
theorem load_linux64_accepts_kernel_without_xlf :
    (LinuxLoader.checkKernelHeader
      { setup_sects := 2, boot_flag := 0xaa55, header := 0x53726448,
        version := 0x020c, xloadflags := 0, relocatable_kernel := 1 }).isOk = true ∧
    (0 : Nat) &&& LinuxLoader.XLF_KERNEL_64 = 0 ∧
    (0 : Nat) &&& LinuxLoader.XLF_CAN_BE_LOADED_ABOVE_4G = 0 := by
  refine ⟨?_, by decide, by decide⟩
  rfl

namespace Apic

/-!  `src/xhype/xhype/src/apic.rs` — the emulated local APIC.

The 4 KiB APIC page is modelled as a map from byte offset to the stored
register value (`Nat → Nat`); every register lives at its own fixed offset
and is written either as a `u32` (`w32`) or as a `u8` (`w8`), mirroring the
typed `MachVMBlock::write` calls of the source.  The `u8` reads/writes of
TPR and PPR are modelled as whole-cell accesses masked to a byte, which
agrees with the byte-level semantics because those cells only ever hold
byte values after `reset`.  The timer fields (`next_timer`, `timer_period`)
and `pending_err` are not part of this state slice: no operation modelled
here reads them.  `debug_assert!`s of the source are modelled as no-ops
(release semantics); claim C1 is precisely the statement that the assert in
`mark_intr_in_service` can never fire. -/

def OFFSET_ID : Nat := 0x20
def OFFSET_VER : Nat := 0x30
def OFFSET_TPR : Nat := 0x80
def OFFSET_APR : Nat := 0x90
def OFFSET_PPR : Nat := 0xa0
def OFFSET_EOI : Nat := 0xb0
def OFFSET_LDR : Nat := 0xd0
def OFFSET_DFR : Nat := 0xe0
def OFFSET_SVR : Nat := 0xf0
def OFFSET_ISR : Nat := 0x100
def OFFSET_TMR : Nat := 0x180
def OFFSET_IRR : Nat := 0x200
def OFFSET_ESR : Nat := 0x280
def OFFSET_LVT_CMCI : Nat := 0x2f0
def OFFSET_ICR0 : Nat := 0x300
def OFFSET_ICR32 : Nat := 0x310
def OFFSET_LVT_TIMER : Nat := 0x320
def OFFSET_LVT_THERMAL : Nat := 0x330
def OFFSET_LVT_PERF : Nat := 0x340
def OFFSET_LVT_LINT0 : Nat := 0x350
def OFFSET_LVT_LINT1 : Nat := 0x360
def OFFSET_LVT_ERROR : Nat := 0x370
def OFFSET_INIT_COUNT : Nat := 0x380
def OFFSET_CURR_COUNT : Nat := 0x390
def OFFSET_DCR : Nat := 0x3e0

/-- `APIC_VER` (apic.rs line 49). -/
def APIC_VER : Nat := 0x10

/-- A `u32` store to the page (`self.apic_page.write::<u32>(v, off, 0)`). -/
def w32 (p : Nat → Nat) (off v : Nat) : Nat → Nat :=
  pupd p off (v &&& 0xffffffff)

/-- A `u8` store to the page (`self.apic_page.write::<u8>(v, off, 0)`). -/
def w8 (p : Nat → Nat) (off v : Nat) : Nat → Nat :=
  pupd p off (v &&& 0xff)

/-- A `u8` read from the page (`self.apic_page.read::<u8>(off, 0)`). -/
def readU8 (p : Nat → Nat) (off : Nat) : Nat :=
  p off &&& 0xff

/-- `priority(v) = v >> 4` (apic.rs lines 72-74). -/
def priority (v : Nat) : Nat :=
  v >>> 4

/-- `isr_offset_vec` (apic.rs lines 77-79). -/
def isr_offset_vec (vector : Nat) : Nat :=
  OFFSET_ISR + (vector / 32) * 0x10

/-- `irr_offset_vec` (apic.rs lines 81-83). -/
def irr_offset_vec (vector : Nat) : Nat :=
  OFFSET_IRR + (vector / 32) * 0x10

/-- `lvt_vec(lvt) = (lvt & 0xff) as u8` (apic.rs lines 64-66). -/
def lvt_vec (lvt : Nat) : Nat :=
  lvt &&& 0xff

/-- The APIC state slice consulted by C1: the register page and the
in-service vector stack `isr_vec` (top of stack = last element, as for the
Rust `Vec`). -/
structure ApicSt where
  page : Nat → Nat
  isr_vec : List Nat

/-- `Apic::set_irr` (apic.rs lines 179-187): OR the vector's bit into its
IRR dword (a duplicate delivery is merely logged). -/
def set_irr (p : Nat → Nat) (vector : Nat) : Nat → Nat :=
  w32 p (irr_offset_vec vector) (p (irr_offset_vec vector) ||| (1 <<< (vector % 32)))

/-- `Apic::clear_irr` (apic.rs lines 171-177): clear the vector's IRR bit
(`irr & !vector_bit` on `u32`). -/
def clear_irr (p : Nat → Nat) (vector : Nat) : Nat → Nat :=
  w32 p (irr_offset_vec vector)
    (p (irr_offset_vec vector) &&& (0xffffffff ^^^ (1 <<< (vector % 32))))

/-- `Apic::set_isr` (apic.rs lines 197-203). -/
def set_isr (p : Nat → Nat) (vector : Nat) : Nat → Nat :=
  w32 p (isr_offset_vec vector) (p (isr_offset_vec vector) ||| (1 <<< (vector % 32)))

/-- `Apic::clear_isr` (apic.rs lines 189-195). -/
def clear_isr (p : Nat → Nat) (vector : Nat) : Nat → Nat :=
  w32 p (isr_offset_vec vector)
    (p (isr_offset_vec vector) &&& (0xffffffff ^^^ (1 <<< (vector % 32))))

/-- `Apic::update_ppr` (apic.rs lines 287-296): PPR is the TPR if its
priority dominates the top in-service vector, otherwise the top vector's
priority class. -/
def update_ppr (st : ApicSt) : ApicSt :=
  let tpr := readU8 st.page OFFSET_TPR
  let isrv := st.isr_vec.getLast?.getD 0
  let ppr := if priority isrv ≤ priority tpr then tpr else isrv &&& 0xf0
  { st with page := w8 st.page OFFSET_PPR ppr }

/-- The body of `Apic::get_vector_from_irr`s descending register scan
(apic.rs lines 299-312): `i` counts the remaining registers, so the first
probed dword is number `i - 1`; `31 - irr.leading_zeros()` of a nonzero
`u32` is its highest set bit, i.e. `Nat.log2`. -/
def gviGo (p : Nat → Nat) (ppr : Nat) : Nat → Option Nat
  | 0 => none
  | i + 1 =>
    let irr := p (OFFSET_IRR + i * 0x10)
    if irr ≠ 0 then
      let vector := i * 32 + Nat.log2 irr
      if priority ppr < priority vector then some vector
      else gviGo p ppr i
    else gviGo p ppr i

/-- `Apic::get_vector_from_irr` (apic.rs lines 299-312): highest pending
IRR vector whose priority exceeds the current PPR, or an error. -/
def get_vector_from_irr (st : ApicSt) : Option Nat :=
  gviGo st.page (readU8 st.page OFFSET_PPR) 8

/-- `Apic::mark_intr_in_service` (apic.rs lines 314-323): clear the IRR
bit, set the ISR bit, push onto the stack, recompute PPR.  The source's
`debug_assert!(self.isr_vec.last().unwrap_or(&0) < &vector)` is the
property claim C1 establishes. -/
def mark_intr_in_service (st : ApicSt) (vector : Nat) : ApicSt :=
  update_ppr
    { st with
      page := set_isr (clear_irr st.page vector) vector,
      isr_vec := st.isr_vec ++ [vector] }

/-- `Apic::inject_interrupt` (apic.rs lines 325-347) restricted to its APIC
state effect.  `accepted` abstracts the VCPU-side conditions (guest
`RFLAGS.IF`, no interrupt shadow in `VMCS_GUEST_IGNORE_IRQ`, free
`VMCS_CTRL_VMENTRY_IRQ_INFO` slot); when they fail the handler only sets
the interrupt-window bit in `VMCS_CTRL_CPU_BASED` and the APIC state is
untouched. -/
def inject_interrupt (st : ApicSt) (accepted : Bool) : ApicSt :=
  match get_vector_from_irr st with
  | some vector => if accepted then mark_intr_in_service st vector else st
  | none => st

/-- The `OFFSET_EOI` arm of `Apic::write` (apic.rs lines 374-384): pop the
top in-service vector, clear its ISR bit and recompute PPR (the TMR check
only schedules an unimplemented I/O-APIC acknowledge); an EOI with an
empty stack is merely logged. -/
def write_eoi (st : ApicSt) : ApicSt :=
  match st.isr_vec.getLast? with
  | some vector =>
      update_ppr
        { st with page := clear_isr st.page vector, isr_vec := st.isr_vec.dropLast }
  | none => st

/-- The `OFFSET_TPR` arm of `Apic::write` (apic.rs lines 365-373): `value`
is masked to `u32` on entry to `write` and cast to `u8`; an actual change
stores it and recomputes PPR. -/
def write_tpr (st : ApicSt) (value : Nat) : ApicSt :=
  let value := (value &&& 0xffffffff) &&& 0xff
  if readU8 st.page OFFSET_TPR ≠ value then
    update_ppr { st with page := w8 st.page OFFSET_TPR value }
  else
    st

/-- `Apic::fire_external_interrupt` (apic.rs lines 268-270); the vector
parameter is a `u8`. -/
def fire_external_interrupt (st : ApicSt) (vector : Nat) : ApicSt :=
  { st with page := set_irr st.page (vector &&& 0xff) }

/-- `Apic::fire_timer_interrupt` (apic.rs lines 272-284) restricted to the
page: set the LVT-timer vector's IRR bit (the timer re-arm touches only
`next_timer`/`timer_period`, outside this state slice). -/
def fire_timer_interrupt (st : ApicSt) : ApicSt :=
  { st with page := set_irr st.page (lvt_vec (st.page OFFSET_LVT_TIMER)) }

/-- The loop `for i in 0..(256 / 32)` of `Apic::reset` (apic.rs lines
500-505), exactly as written in the source: each iteration stores zero to
the TMR dword and *twice* to the ISR dword — the IRR block is never
written, although the comment above the loop says "reset IRR, ISR, TMR". -/
def resetIsrTmrLoop (p : Nat → Nat) : Nat → Nat :=
  (List.range 8).foldl
    (fun p i =>
      w32 (w32 (w32 p (OFFSET_TMR + i * 0x10) 0) (OFFSET_ISR + i * 0x10) 0)
        (OFFSET_ISR + i * 0x10) 0)
    p

/-- `Apic::reset` (apic.rs lines 483-529) restricted to the page: the
sequence of register stores in source order (`update_timer_period` only
reads the page and stores to the timer fields outside this slice). -/
def resetPage (id : Nat) (p : Nat → Nat) : Nat → Nat :=
  let p := w32 p OFFSET_ID (id <<< 24)
  let p := w32 p OFFSET_VER (APIC_VER ||| (6 <<< 16))
  let p := w32 p OFFSET_TPR 0
  let p := w32 p OFFSET_APR 0
  let p := w32 p OFFSET_PPR 0
  let p := w32 p OFFSET_LDR 0
  let p := w32 p OFFSET_DFR 0xffffffff
  let p := w32 p OFFSET_SVR 0xff
  let p := resetIsrTmrLoop p
  let p := w32 p OFFSET_ESR 0
  let p := w32 p OFFSET_LVT_CMCI 0x10000
  let p := w32 p OFFSET_LVT_TIMER 0x10000
  let p := w32 p OFFSET_LVT_THERMAL 0x10000
  let p := w32 p OFFSET_LVT_PERF 0x10000
  let p := w32 p OFFSET_LVT_LINT0 0x10000
  let p := w32 p OFFSET_LVT_LINT1 0x10000
  let p := w32 p OFFSET_LVT_ERROR 0x10000
  let p := w32 p OFFSET_ICR0 0
  let p := w32 p OFFSET_ICR32 0
  let p := w32 p OFFSET_DCR 0
  let p := w32 p OFFSET_CURR_COUNT 0
  let p := w32 p OFFSET_INIT_COUNT 0
  p

/-- The state of a freshly constructed APIC (`Apic::new`, apic.rs lines
129-161): a zeroed host page passed through `reset`, with an empty
in-service stack. -/
def initApic (id : Nat) : ApicSt :=
  { page := resetPage id (fun _ => 0), isr_vec := [] }

/-- The operations of claim C1's sequences: EOI writes, TPR writes,
interrupt-in-service markings (`inject_interrupt`), and the IRR-only
deliveries that feed them. -/
inductive ApicOp where
  | writeTPR (value : Nat)
  | writeEOI
  | inject (accepted : Bool)
  | fireExternal (vector : Nat)
  | fireTimer

/-- Apply one operation. -/
def applyOp (st : ApicSt) : ApicOp → ApicSt
  | .writeTPR value => write_tpr st value
  | .writeEOI => write_eoi st
  | .inject accepted => inject_interrupt st accepted
  | .fireExternal vector => fire_external_interrupt st vector
  | .fireTimer => fire_timer_interrupt st

/-- Apply a sequence of operations in order. -/
def applyOps (st : ApicSt) (ops : List ApicOp) : ApicSt :=
  ops.foldl applyOp st

end Apic

/-- Claim C2 is false of the code (code bug): `Apic::reset` does *not* zero
the IRR block — its reset loop stores zero to the ISR dword twice and never
to the IRR dword (apic.rs lines 501-505), contradicting the comment right
above it ("reset IRR, ISR, TMR").  Concretely: from a freshly reset APIC
(id 0), delivering vector 48 (`fire_external_interrupt`) sets IRR bit 16 of
dword 1, and a subsequent `reset` leaves that IRR dword at `0x10000` while
every ISR and TMR dword does read zero. -/
theorem apic_reset_leaves_irr_set :
    Apic.resetPage 0
        (Apic.fire_external_interrupt (Apic.initApic 0) 48).page
        (Apic.irr_offset_vec 48) = 0x10000 ∧
    (∀ i < 8,
      Apic.resetPage 0 (Apic.fire_external_interrupt (Apic.initApic 0) 48).page
          (Apic.OFFSET_ISR + i * 0x10) = 0 ∧
      Apic.resetPage 0 (Apic.fire_external_interrupt (Apic.initApic 0) 48).page
          (Apic.OFFSET_TMR + i * 0x10) = 0) := by
  constructor
  · rfl
  · decide

namespace Apic

/-! ### Infrastructure for the C1 invariant -/

/-- Every page cell holds a `u32` value. -/
def PageBounded (p : Nat → Nat) : Prop :=
  ∀ o, p o < 2 ^ 32

theorem pageBounded_w32 {p : Nat → Nat} (hp : PageBounded p) (off v : Nat) :
    PageBounded (w32 p off v) := by
  intro o
  unfold w32 pupd
  split
  · have : v &&& 0xffffffff ≤ 0xffffffff := Nat.and_le_right
    omega
  · exact hp o

theorem pageBounded_w8 {p : Nat → Nat} (hp : PageBounded p) (off v : Nat) :
    PageBounded (w8 p off v) := by
  intro o
  unfold w8 pupd
  split
  · have : v &&& 0xff ≤ 0xff := Nat.and_le_right
    omega
  · exact hp o

theorem readU8_lt (p : Nat → Nat) (off : Nat) : readU8 p off < 256 := by
  have : p off &&& 0xff ≤ 0xff := Nat.and_le_right
  unfold readU8
  omega

theorem readU8_w8_same (p : Nat → Nat) (off v : Nat) :
    readU8 (w8 p off v) off = v &&& 0xff := by
  simp [readU8, w8, pupd, Nat.and_assoc]

theorem readU8_w32_other (p : Nat → Nat) (off v o : Nat) (h : o ≠ off) :
    readU8 (w32 p off v) o = readU8 p o := by
  simp [readU8, w32, pupd, h]

/-- `priority` is division by 16. -/
theorem priority_eq_div (x : Nat) : priority x = x / 16 := by
  simp [priority, Nat.shiftRight_eq_div_pow]

theorem lt_of_priority_lt {a b : Nat} (h : priority a < priority b) : a < b := by
  rw [priority_eq_div, priority_eq_div] at h
  omega

/-- Facts about the `& 0xf0` priority class of a byte. -/
theorem and_f0_byte_facts : ∀ x < 256,
    (x &&& 0xf0) &&& 0xff = x &&& 0xf0 ∧ (x &&& 0xf0) >>> 4 = x >>> 4 := by
  decide

theorem getLastD_lt_256 (l : List Nat) (h : ∀ v ∈ l, v < 256) :
    l.getLast?.getD 0 < 256 := by
  cases hl : l.getLast? with
  | none => simp
  | some v =>
    obtain ⟨hne, heq⟩ := List.mem_getLast?_eq_getLast (hl ▸ rfl : v ∈ l.getLast?)
    simpa [heq] using h _ (List.getLast_mem hne)

/-- The IRR dword offsets are above `0x200`, the ISR dword offsets within
`0x100..0x170`; neither can be the PPR or TPR byte. -/
theorem irr_offset_ne_ppr (v : Nat) : OFFSET_PPR ≠ irr_offset_vec v := by
  unfold OFFSET_PPR irr_offset_vec OFFSET_IRR
  omega

theorem isr_offset_ne_ppr (v : Nat) : OFFSET_PPR ≠ isr_offset_vec v := by
  unfold OFFSET_PPR isr_offset_vec OFFSET_ISR
  omega

/-- The inductive invariant for claim C1: the stack is strictly increasing,
holds byte-sized vectors, its top's priority never exceeds the stored PPR's,
and the page stores `u32` values. -/
def Inv (st : ApicSt) : Prop :=
  st.isr_vec.Chain' (· < ·) ∧
  (∀ v ∈ st.isr_vec, v < 256) ∧
  priority (st.isr_vec.getLast?.getD 0) ≤ priority (readU8 st.page OFFSET_PPR) ∧
  PageBounded st.page

theorem update_ppr_isr_vec (st : ApicSt) : (update_ppr st).isr_vec = st.isr_vec := rfl

/-- `update_ppr` re-establishes the PPR component of the invariant in any
state whose stack holds bytes. -/
theorem update_ppr_ppr_ge (st : ApicSt) (h2 : ∀ v ∈ st.isr_vec, v < 256) :
    priority ((update_ppr st).isr_vec.getLast?.getD 0) ≤
      priority (readU8 (update_ppr st).page OFFSET_PPR) := by
  have hisrv : st.isr_vec.getLast?.getD 0 < 256 := getLastD_lt_256 _ h2
  unfold update_ppr
  simp only [readU8_w8_same]
  by_cases hc :
      priority (st.isr_vec.getLast?.getD 0) ≤ priority (readU8 st.page OFFSET_TPR)
  · rw [if_pos hc]
    have htpr : readU8 st.page OFFSET_TPR &&& 0xff = readU8 st.page OFFSET_TPR := by
      simp [readU8, Nat.and_assoc]
    rw [htpr]
    exact hc
  · rw [if_neg hc]
    obtain ⟨hmask, hshift⟩ := and_f0_byte_facts _ hisrv
    rw [hmask]
    unfold priority
    rw [hshift]

theorem update_ppr_bound (st : ApicSt) (h : PageBounded st.page) :
    PageBounded (update_ppr st).page := by
  unfold update_ppr
  exact pageBounded_w8 h _ _

end Apic

namespace Apic

/-- A successful IRR scan returns a vector strictly above the scanned PPR in
priority, and (for a `u32`-bounded page) a byte-sized vector. -/
theorem gviGo_some {p : Nat → Nat} (hp : PageBounded p) (ppr : Nat) :
    ∀ n ≤ 8, ∀ v, gviGo p ppr n = some v →
      priority ppr < priority v ∧ v < 256 := by
  intro n
  induction n with
  | zero => intro _ v h; simp [gviGo] at h
  | succ i ih =>
    intro hn v h
    unfold gviGo at h
    by_cases hirr : p (OFFSET_IRR + i * 0x10) ≠ 0
    · rw [if_pos hirr] at h
      by_cases hpri : priority ppr < priority (i * 32 + Nat.log2 (p (OFFSET_IRR + i * 0x10)))
      · rw [if_pos hpri] at h
        obtain rfl : i * 32 + Nat.log2 (p (OFFSET_IRR + i * 0x10)) = v := by
          simpa using h
        refine ⟨hpri, ?_⟩
        have hlog : Nat.log2 (p (OFFSET_IRR + i * 0x10)) < 32 :=
          (Nat.log2_lt hirr).mpr (hp _)
        omega
      · rw [if_neg hpri] at h
        exact ih (by omega) v h
    · rw [if_neg hirr] at h
      exact ih (by omega) v h

theorem get_vector_some (st : ApicSt) (v : Nat) (h4 : PageBounded st.page)
    (h : get_vector_from_irr st = some v) :
    priority (readU8 st.page OFFSET_PPR) < priority v ∧ v < 256 :=
  gviGo_some h4 _ 8 (by omega) v h

/-- One operation preserves the invariant. -/
theorem applyOp_inv (st : ApicSt) (op : ApicOp) (h : Inv st) :
    Inv (applyOp st op) := by
  obtain ⟨h1, h2, h3, h4⟩ := h
  cases op with
  | writeTPR value =>
    simp only [applyOp, write_tpr]
    split
    · refine ⟨h1, h2, ?_, ?_⟩
      · exact update_ppr_ppr_ge _ h2
      · exact update_ppr_bound _ (pageBounded_w8 h4 _ _)
    · exact ⟨h1, h2, h3, h4⟩
  | writeEOI =>
    simp only [applyOp, write_eoi]
    cases hlast : st.isr_vec.getLast? with
    | none => exact ⟨h1, h2, h3, h4⟩
    | some vector =>
      refine ⟨?_, ?_, ?_, ?_⟩
      · exact List.Chain'.sublist h1 (List.dropLast_sublist _)
      · exact fun v hv => h2 v (List.dropLast_subset _ hv)
      · exact update_ppr_ppr_ge _ (fun v hv => h2 v (List.dropLast_subset _ hv))
      · exact update_ppr_bound _ (pageBounded_w32 h4 _ _)
  | inject accepted =>
    simp only [applyOp, inject_interrupt]
    cases hv : get_vector_from_irr st with
    | none => exact ⟨h1, h2, h3, h4⟩
    | some vector =>
      cases accepted with
      | false => exact ⟨h1, h2, h3, h4⟩
      | true =>
        obtain ⟨hpri, hv256⟩ := get_vector_some st vector h4 hv
        -- the accepted vector strictly dominates the current stack top
        have htop : st.isr_vec.getLast?.getD 0 < vector :=
          lt_of_priority_lt (lt_of_le_of_lt h3 hpri)
        have h2' : ∀ v ∈ st.isr_vec ++ [vector], v < 256 := by
          intro v hvmem
          rcases List.mem_append.mp hvmem with hvl | hvr
          · exact h2 v hvl
          · simpa using (List.mem_singleton.mp hvr) ▸ hv256
        simp only [if_pos, mark_intr_in_service]
        refine ⟨?_, ?_, ?_, ?_⟩
        · rw [update_ppr_isr_vec]
          refine List.chain'_append.mpr ⟨h1, List.chain'_singleton _, ?_⟩
          intro x hx y hy
          obtain rfl : vector = y := by simpa using hy
          rw [Option.mem_def] at hx
          have : st.isr_vec.getLast?.getD 0 = x := by rw [hx]; rfl
          omega
        · rw [update_ppr_isr_vec]; exact h2'
        · exact update_ppr_ppr_ge _ h2'
        · exact update_ppr_bound _ (pageBounded_w32 (pageBounded_w32 h4 _ _) _ _)
  | fireExternal vector =>
    simp only [applyOp, fire_external_interrupt]
    refine ⟨h1, h2, ?_, pageBounded_w32 h4 _ _⟩
    unfold set_irr
    rw [readU8_w32_other _ _ _ _ (irr_offset_ne_ppr _)]
    exact h3
  | fireTimer =>
    simp only [applyOp, fire_timer_interrupt]
    refine ⟨h1, h2, ?_, pageBounded_w32 h4 _ _⟩
    unfold set_irr
    rw [readU8_w32_other _ _ _ _ (irr_offset_ne_ppr _)]
    exact h3

end Apic

namespace Apic

theorem pageBounded_resetLoop {p : Nat → Nat} (hp : PageBounded p) :
    PageBounded (resetIsrTmrLoop p) := by
  unfold resetIsrTmrLoop
  have hgen : ∀ (l : List Nat) (q : Nat → Nat), PageBounded q →
      PageBounded (l.foldl
        (fun q i =>
          w32 (w32 (w32 q (OFFSET_TMR + i * 0x10) 0) (OFFSET_ISR + i * 0x10) 0)
            (OFFSET_ISR + i * 0x10) 0) q) := by
    intro l
    induction l with
    | nil => intro q hq; exact hq
    | cons a t ih =>
      intro q hq
      exact ih _ (pageBounded_w32 (pageBounded_w32 (pageBounded_w32 hq _ _) _ _) _ _)
  exact hgen _ p hp

theorem pageBounded_resetPage (id : Nat) {p : Nat → Nat} (hp : PageBounded p) :
    PageBounded (resetPage id p) := by
  unfold resetPage
  exact pageBounded_w32 (pageBounded_w32 (pageBounded_w32 (pageBounded_w32
    (pageBounded_w32 (pageBounded_w32 (pageBounded_w32 (pageBounded_w32
      (pageBounded_w32 (pageBounded_w32 (pageBounded_w32 (pageBounded_w32
        (pageBounded_w32 (pageBounded_resetLoop (pageBounded_w32 (pageBounded_w32
          (pageBounded_w32 (pageBounded_w32 (pageBounded_w32 (pageBounded_w32
            (pageBounded_w32 (pageBounded_w32 hp _ _) _ _) _ _) _ _) _ _) _ _)
          _ _) _ _)) _ _) _ _) _ _) _ _) _ _) _ _) _ _) _ _) _ _) _ _) _ _) _ _) _ _

/-- After `reset`, the PPR byte is zero (the writes following the PPR store
all target other offsets). -/
theorem resetPage_ppr (id : Nat) (p : Nat → Nat) : resetPage id p OFFSET_PPR = 0 := by
  have h8 : List.range 8 = [0, 1, 2, 3, 4, 5, 6, 7] := rfl
  simp [resetPage, resetIsrTmrLoop, h8, w32, pupd, OFFSET_PPR, OFFSET_ID, OFFSET_VER,
    OFFSET_TPR, OFFSET_APR, OFFSET_LDR, OFFSET_DFR, OFFSET_SVR, OFFSET_ISR, OFFSET_TMR,
    OFFSET_ESR, OFFSET_LVT_CMCI, OFFSET_LVT_TIMER, OFFSET_LVT_THERMAL, OFFSET_LVT_PERF,
    OFFSET_LVT_LINT0, OFFSET_LVT_LINT1, OFFSET_LVT_ERROR, OFFSET_ICR0, OFFSET_ICR32,
    OFFSET_DCR, OFFSET_CURR_COUNT, OFFSET_INIT_COUNT]

/-- The freshly constructed APIC satisfies the invariant. -/
theorem initApic_inv (id : Nat) : Inv (initApic id) := by
  refine ⟨List.chain'_nil, by simp [initApic], ?_, ?_⟩
  · simp [initApic, readU8, resetPage_ppr, priority]
  · exact pageBounded_resetPage id (fun _ => by norm_num)

theorem applyOps_inv (st : ApicSt) (ops : List ApicOp) (h : Inv st) :
    Inv (applyOps st ops) := by
  induction ops generalizing st with
  | nil => exact h
  | cons op t ih => exact ih _ (applyOp_inv st op h)

end Apic

/-- Claim C1: starting from a freshly constructed local APIC, after any
sequence of EOI writes interleaved with interrupt-in-service markings
(`inject_interrupt` accepting a vector) — and, more generally, also TPR
writes and external/timer IRR deliveries — the in-service vector stack
`isr_vec` is strictly increasing from bottom to top whenever it is
non-empty. -/
theorem apic_isr_vec_strictly_increasing (id : Nat) (ops : List Apic.ApicOp) :
    (Apic.applyOps (Apic.initApic id) ops).isr_vec.Chain' (· < ·) :=
  (Apic.applyOps_inv _ ops (Apic.initApic_inv id)).1

namespace Vmexit

/-!  `src/xhype/xhype/src/vmexit.rs` — the MSR-access exit handlers, over a
pure VCPU state (registers and VMCS fields become record/map updates; the
`hv` wrapper's read/write operations cannot fail in this model). -/

/-- The VMCS fields touched by the MSR handlers.  Their numeric encodings
live in `hv::vmx` (absent from `src/`); the handlers only need them as
distinct keys of the VMCS map. -/
inductive VmcsField where
  | VMCS_GUEST_IA32_EFER
  | VMCS_CTRL_VMENTRY_EXC_ERROR
  | VMCS_CTRL_VMENTRY_IRQ_INFO
deriving DecidableEq

/-- Update one VMCS field. -/
def vupd (f : VmcsField → Nat) (k : VmcsField) (v : Nat) : VmcsField → Nat :=
  fun x => if x = k then v else f x

/-- The guest registers consulted by `handle_msr_access` plus the VMCS map. -/
structure VcpuSt where
  rax : Nat
  rcx : Nat
  rdx : Nat
  vmcs : VmcsField → Nat

/-- The guest-thread fields consulted by the MSR handlers
(`GuestThread::pat_msr` and `Apic::msr_apic_base`). -/
structure GthSt where
  pat_msr : Nat
  msr_apic_base : Nat

/-- `HandleResult` (vmexit.rs lines 19-23). -/
inductive HandleResult where
  | exit
  | resume
  | next
deriving DecidableEq

/-- `MsrPolicy` (lib.rs lines 86-90). -/
inductive MsrPolicy where
  | random
  | allOne
  | gp
deriving DecidableEq

/-- `PolicyList` (lib.rs lines 93-96); the `HashSet` is modelled as a list
queried with `contains`. -/
inductive PolicyList where
  | apply (set : List Nat)
  | except (set : List Nat)

/-- The `Error` variants reachable from `handle_msr_access` (err.rs lines
6-17). -/
inductive VmError where
  | unhandled (reason : Nat) (msg : String)

/-- Modelled from the spec: the exit-reason codes live in `hv::vmx`, which is
absent from `src/`; the dispatcher section titles in vmexit.rs name
`VMX_REASON_RDMSR`/`VMX_REASON_WRMSR`, whose architectural encodings are 31
and 32.  The claims do not depend on the numbers, only on the error being an
`Unhandled`. -/
def VMX_REASON_RDMSR : Nat := 31

/-- Modelled from the spec: see `VMX_REASON_RDMSR`. -/
def VMX_REASON_WRMSR : Nat := 32

/-- `MSR_EFER` (consts/msr.rs line 5). -/
def MSR_EFER : Nat := 0xc0000080

/-- `MSR_IA32_MISC_ENABLE` (consts/msr.rs line 397). -/
def MSR_IA32_MISC_ENABLE : Nat := 0x1a0

/-- `MSR_IA32_BIOS_SIGN_ID` (consts/msr.rs line 609). -/
def MSR_IA32_BIOS_SIGN_ID : Nat := 0x8b

/-- `MSR_IA32_CR_PAT` (consts/msr.rs line 104). -/
def MSR_IA32_CR_PAT : Nat := 0x277

/-- Modelled from the spec: `MSR_IA32_APIC_BASE` comes from `consts::x86`,
which is absent from `src/`; the spec names it as the IA32_APIC_BASE MSR,
whose architectural number is `0x1b`. -/
def MSR_IA32_APIC_BASE : Nat := 0x1b

/-- `write_msr_to_reg` (vmexit.rs lines 252-257): splits a 64-bit MSR value
into EAX:EDX. -/
def write_msr_to_reg (msr_value : Nat) (s : VcpuSt) : VcpuSt :=
  { s with rax := msr_value &&& 0xffffffff, rdx := msr_value >>> 32 }

/-- `inject_exception` (vmexit.rs lines 275-290): Table 24-14 format of the
VM-entry interruption-information field. -/
def inject_exception (s : VcpuSt) (vector exception_type : Nat) (code : Option Nat) :
    VcpuSt :=
  match code with
  | some c =>
    let s := { s with vmcs := vupd s.vmcs .VMCS_CTRL_VMENTRY_EXC_ERROR c }
    let info := (1 <<< 31) ||| vector ||| (exception_type <<< 8) ||| (1 <<< 11)
    { s with vmcs := vupd s.vmcs .VMCS_CTRL_VMENTRY_IRQ_INFO info }
  | none =>
    let info := (1 <<< 31) ||| vector ||| (exception_type <<< 8)
    { s with vmcs := vupd s.vmcs .VMCS_CTRL_VMENTRY_IRQ_INFO info }

/-- `msr_unknown` (vmexit.rs lines 259-272): an unhandled-exit error for
both directions (the `format!` payloads are abbreviated to fixed strings). -/
def msr_unknown (new_value : Option Nat) :
    Except VmError (VcpuSt × GthSt × HandleResult) :=
  match new_value with
  | some _ => .error (.unhandled VMX_REASON_WRMSR "guest writes to unknown msr")
  | none => .error (.unhandled VMX_REASON_RDMSR "guest reads from unknown msr")

/-- `msr_apply_policy` (vmexit.rs lines 292-329).  `randomVal` stands for the
value `rand::random()` would produce under the `Random` policy. -/
def msr_apply_policy (policy : MsrPolicy) (randomVal : Nat) (s : VcpuSt) (gth : GthSt)
    (new_value : Option Nat) : VcpuSt × GthSt × HandleResult :=
  match policy with
  | .gp => (inject_exception s 13 3 (some 0), gth, .resume)
  | .allOne =>
    match new_value with
    | none => (write_msr_to_reg 0xffffffffffffffff s, gth, .next)
    | some _ => (s, gth, .next)
  | .random =>
    match new_value with
    | none => (write_msr_to_reg randomVal s, gth, .next)
    | some _ => (s, gth, .next)

/-- `msr_efer` (vmexit.rs lines 331-343). -/
def msr_efer (s : VcpuSt) (gth : GthSt) (new_value : Option Nat) :
    VcpuSt × GthSt × HandleResult :=
  match new_value with
  | some v => ({ s with vmcs := vupd s.vmcs .VMCS_GUEST_IA32_EFER v }, gth, .next)
  | none => (write_msr_to_reg (s.vmcs .VMCS_GUEST_IA32_EFER) s, gth, .next)

/-- `msr_apicbase` (vmexit.rs lines 345-360): a changed base is logged as an
error but stored anyway. -/
def msr_apicbase (s : VcpuSt) (gth : GthSt) (new_value : Option Nat) :
    VcpuSt × GthSt × HandleResult :=
  match new_value with
  | some v =>
    if v ≠ gth.msr_apic_base then (s, { gth with msr_apic_base := v }, .next)
    else (s, gth, .next)
  | none => (write_msr_to_reg gth.msr_apic_base s, gth, .next)

/-- `msr_read_only` (vmexit.rs lines 362-380): reads return the default
value; writes of a different value are only logged with a warning — the
handler returns `Next` in every case. -/
def msr_read_only (s : VcpuSt) (gth : GthSt) (new_value : Option Nat)
    (default_value : Nat) : VcpuSt × GthSt × HandleResult :=
  match new_value with
  | some _ => (s, gth, .next)
  | none => (write_msr_to_reg default_value s, gth, .next)

/-- `msr_pat` (vmexit.rs lines 382-393). -/
def msr_pat (s : VcpuSt) (gth : GthSt) (new_value : Option Nat) :
    VcpuSt × GthSt × HandleResult :=
  match new_value with
  | some v => (s, { gth with pat_msr := v }, .next)
  | none => (write_msr_to_reg gth.pat_msr s, gth, .next)

/-- `handle_msr_access` (vmexit.rs lines 395-435): `read = true` for RDMSR.
The Rust `match msr` over constant patterns becomes an equality chain; the
policy-list dispatch for unrecognized MSRs is as in the source. -/
def handle_msr_access (policy : MsrPolicy) (msr_list : PolicyList) (randomVal : Nat)
    (s : VcpuSt) (gth : GthSt) (read : Bool) :
    Except VmError (VcpuSt × GthSt × HandleResult) :=
  let msr := s.rcx &&& 0xffffffff
  let new_value :=
    if read then none
    else some (((s.rdx &&& 0xffffffff) <<< 32) ||| (s.rax &&& 0xffffffff))
  if msr = MSR_EFER then .ok (msr_efer s gth new_value)
  else if msr = MSR_IA32_MISC_ENABLE then
    -- enable fast string, disable pebs and bts.
    .ok (msr_read_only s gth new_value (1 ||| ((1 <<< 12) ||| (1 <<< 11))))
  else if msr = MSR_IA32_BIOS_SIGN_ID then .ok (msr_read_only s gth new_value 0)
  else if msr = MSR_IA32_CR_PAT then .ok (msr_pat s gth new_value)
  else if msr = MSR_IA32_APIC_BASE then .ok (msr_apicbase s gth new_value)
  else
    match msr_list with
    | .apply set =>
      if set.contains msr then .ok (msr_apply_policy policy randomVal s gth new_value)
      else msr_unknown new_value
    | .except set =>
      if !set.contains msr then .ok (msr_apply_policy policy randomVal s gth new_value)
      else msr_unknown new_value

end Vmexit

/-- For an unrecognized MSR selected by the policy list, `handle_msr_access`
dispatches to `msr_apply_policy`. -/
theorem handle_msr_unrecognized (policy : Vmexit.MsrPolicy)
    (msr_list : Vmexit.PolicyList) (randomVal : Nat) (s : Vmexit.VcpuSt)
    (gth : Vmexit.GthSt) (read : Bool)
    (h1 : s.rcx &&& 0xffffffff ≠ Vmexit.MSR_EFER)
    (h2 : s.rcx &&& 0xffffffff ≠ Vmexit.MSR_IA32_MISC_ENABLE)
    (h3 : s.rcx &&& 0xffffffff ≠ Vmexit.MSR_IA32_BIOS_SIGN_ID)
    (h4 : s.rcx &&& 0xffffffff ≠ Vmexit.MSR_IA32_CR_PAT)
    (h5 : s.rcx &&& 0xffffffff ≠ Vmexit.MSR_IA32_APIC_BASE)
    (hsel : (match msr_list with
             | .apply set => set.contains (s.rcx &&& 0xffffffff)
             | .except set => !set.contains (s.rcx &&& 0xffffffff)) = true) :
    Vmexit.handle_msr_access policy msr_list randomVal s gth read =
      .ok (Vmexit.msr_apply_policy policy randomVal s gth
        (if read then none
         else some (((s.rdx &&& 0xffffffff) <<< 32) ||| (s.rax &&& 0xffffffff)))) := by
  unfold Vmexit.handle_msr_access
  simp only [if_neg h1, if_neg h2, if_neg h3, if_neg h4, if_neg h5]
  cases msr_list with
  | apply set =>
    simp only at hsel
    simp only [hsel, if_true]
  | except set =>
    simp only at hsel
    simp only [hsel, if_true]

/-- Claim C5: for every access to an MSR outside the recognized set
(`EFER`, `IA32_MISC_ENABLE`, `IA32_BIOS_SIGN_ID`, `IA32_CR_PAT`,
`IA32_APIC_BASE`), when the policy list selects that MSR: under `GP` the
handler writes `VMCS_CTRL_VMENTRY_EXC_ERROR = 0` and
`VMCS_CTRL_VMENTRY_IRQ_INFO = (1<<31)|13|(3<<8)|(1<<11)` (a #GP with error
code 0) and returns `Resume`; under `AllOne` reads place all-ones in
EAX:EDX and writes are accepted with `Next`; under `Random` reads place
some value in EAX:EDX and writes are accepted with `Next`. -/
theorem msr_policy_behaviour (policy : Vmexit.MsrPolicy) (msr_list : Vmexit.PolicyList)
    (randomVal : Nat) (s : Vmexit.VcpuSt) (gth : Vmexit.GthSt) (read : Bool)
    (h1 : s.rcx &&& 0xffffffff ≠ Vmexit.MSR_EFER)
    (h2 : s.rcx &&& 0xffffffff ≠ Vmexit.MSR_IA32_MISC_ENABLE)
    (h3 : s.rcx &&& 0xffffffff ≠ Vmexit.MSR_IA32_BIOS_SIGN_ID)
    (h4 : s.rcx &&& 0xffffffff ≠ Vmexit.MSR_IA32_CR_PAT)
    (h5 : s.rcx &&& 0xffffffff ≠ Vmexit.MSR_IA32_APIC_BASE)
    (hsel : (match msr_list with
             | .apply set => set.contains (s.rcx &&& 0xffffffff)
             | .except set => !set.contains (s.rcx &&& 0xffffffff)) = true) :
    (policy = .gp → ∃ s', Vmexit.handle_msr_access policy msr_list randomVal s gth read
        = .ok (s', gth, .resume) ∧
      s'.vmcs .VMCS_CTRL_VMENTRY_EXC_ERROR = 0 ∧
      s'.vmcs .VMCS_CTRL_VMENTRY_IRQ_INFO
        = (1 <<< 31) ||| 13 ||| (3 <<< 8) ||| (1 <<< 11)) ∧
    (policy = .allOne →
      (read = true → ∃ s', Vmexit.handle_msr_access policy msr_list randomVal s gth read
          = .ok (s', gth, .next) ∧ s'.rax = 0xffffffff ∧ s'.rdx = 0xffffffff) ∧
      (read = false → Vmexit.handle_msr_access policy msr_list randomVal s gth read
          = .ok (s, gth, .next))) ∧
    (policy = .random →
      (read = true → ∃ s', Vmexit.handle_msr_access policy msr_list randomVal s gth read
          = .ok (s', gth, .next) ∧ s'.rax = randomVal &&& 0xffffffff ∧
            s'.rdx = randomVal >>> 32) ∧
      (read = false → Vmexit.handle_msr_access policy msr_list randomVal s gth read
          = .ok (s, gth, .next))) := by
  have hd := handle_msr_unrecognized policy msr_list randomVal s gth read
    h1 h2 h3 h4 h5 hsel
  refine ⟨?_, ?_, ?_⟩
  · rintro rfl
    rw [hd]
    refine ⟨Vmexit.inject_exception s 13 3 (some 0), ?_, ?_, ?_⟩
    · cases read <;> rfl
    · simp [Vmexit.inject_exception, Vmexit.vupd]
    · simp [Vmexit.inject_exception, Vmexit.vupd]
  · rintro rfl
    constructor
    · rintro rfl
      rw [hd]
      refine ⟨Vmexit.write_msr_to_reg 0xffffffffffffffff s, ?_, ?_, ?_⟩
      · rfl
      · simp only [Vmexit.write_msr_to_reg]
        decide
      · simp only [Vmexit.write_msr_to_reg]
        decide
    · rintro rfl
      rw [hd]
      rfl
  · rintro rfl
    constructor
    · rintro rfl
      rw [hd]
      exact ⟨Vmexit.write_msr_to_reg randomVal s, rfl, rfl, rfl⟩
    · rintro rfl
      rw [hd]
      rfl

/-- Witness for C5 at concrete inputs: MSR `0x123` under an `Apply` list
containing it, with a zeroed VCPU/guest-thread state (RCX selects the MSR),
for the `GP` policy on a read access. -/
theorem msr_policy_behaviour_witness :
    ∃ s', Vmexit.handle_msr_access .gp (.apply [0x123]) 0
        (Vmexit.VcpuSt.mk 0 0x123 0 (fun _ => 0)) (Vmexit.GthSt.mk 0 0) true
        = .ok (s', Vmexit.GthSt.mk 0 0, .resume) ∧
      s'.vmcs .VMCS_CTRL_VMENTRY_EXC_ERROR = 0 ∧
      s'.vmcs .VMCS_CTRL_VMENTRY_IRQ_INFO
        = (1 <<< 31) ||| 13 ||| (3 <<< 8) ||| (1 <<< 11) :=
  (msr_policy_behaviour .gp (.apply [0x123]) 0
    (Vmexit.VcpuSt.mk 0 0x123 0 (fun _ => 0)) (Vmexit.GthSt.mk 0 0) true
    (by decide) (by decide) (by decide) (by decide) (by decide) (by decide)).1 rfl

/-- Counterexample to claim C6: a WRMSR to `IA32_MISC_ENABLE` of value `0` —
which differs from the fixed value `1 | (1<<11) | (1<<12)` — is *not* an
error: `msr_read_only` only logs a warning and `handle_msr_access` returns
the success result `Next` with the state unchanged. -/
theorem misc_enable_write_mismatch_accepted :
    Vmexit.handle_msr_access .gp (.apply []) 0
        (Vmexit.VcpuSt.mk 0 0x1a0 0 (fun _ => 0)) (Vmexit.GthSt.mk 0 0) false
      = .ok (Vmexit.VcpuSt.mk 0 0x1a0 0 (fun _ => 0), Vmexit.GthSt.mk 0 0, .next) ∧
    (0 : Nat) ≠ 1 ||| ((1 <<< 12) ||| (1 <<< 11)) := by
  constructor
  · rfl
  · decide

/-- Claim C6 as amended: a WRMSR to `IA32_MISC_ENABLE` of exactly the fixed
value (fast-string enabled, PEBS and BTS unavailable, `1|(1<<11)|(1<<12)`)
is accepted and handling returns `Next`; a WRMSR of *any other* value is
accepted as well and also returns `Next` — the mismatch is only logged as a
warning, never surfaced as an error. -/
theorem misc_enable_write_always_next (policy : Vmexit.MsrPolicy)
    (msr_list : Vmexit.PolicyList) (randomVal : Nat) (s : Vmexit.VcpuSt)
    (gth : Vmexit.GthSt)
    (hrcx : s.rcx &&& 0xffffffff = Vmexit.MSR_IA32_MISC_ENABLE) :
    Vmexit.handle_msr_access policy msr_list randomVal s gth false
      = .ok (s, gth, .next) := by
  unfold Vmexit.handle_msr_access
  simp only [hrcx]
  norm_num [Vmexit.MSR_IA32_MISC_ENABLE, Vmexit.MSR_EFER, Vmexit.msr_read_only]

/-- Witness for C6's amended theorem at a concrete state (RCX selects
`IA32_MISC_ENABLE`, EAX:EDX carry the written value `7`). -/
theorem misc_enable_write_always_next_witness :
    Vmexit.handle_msr_access .allOne (.except []) 0
        (Vmexit.VcpuSt.mk 7 0x1a0 0 (fun _ => 0)) (Vmexit.GthSt.mk 0 0) false
      = .ok (Vmexit.VcpuSt.mk 7 0x1a0 0 (fun _ => 0), Vmexit.GthSt.mk 0 0, .next) :=
  misc_enable_write_always_next .allOne (.except []) 0
    (Vmexit.VcpuSt.mk 7 0x1a0 0 (fun _ => 0)) (Vmexit.GthSt.mk 0 0) (by decide)

namespace Virtio

/-!  `src/xhype/xhype/src/virtio/mod.rs` and `src/xhype/xhype/src/virtio/mmio.rs`
— the device-status state machine of the virtio-mmio transport. -/

/-- `VIRTIO_CONFIG_S_ACKNOWLEDGE` (virtio/mod.rs line 22). -/
def VIRTIO_CONFIG_S_ACKNOWLEDGE : Nat := 1

/-- `VIRTIO_CONFIG_S_DRIVER` (virtio/mod.rs line 24). -/
def VIRTIO_CONFIG_S_DRIVER : Nat := 2

/-- `VIRTIO_CONFIG_S_DRIVER_OK` (virtio/mod.rs line 26). -/
def VIRTIO_CONFIG_S_DRIVER_OK : Nat := 4

/-- `VIRTIO_CONFIG_S_FEATURES_OK` (virtio/mod.rs line 28). -/
def VIRTIO_CONFIG_S_FEATURES_OK : Nat := 8

/-- `VIRTIO_CONFIG_S_FAILED` (virtio/mod.rs line 32). -/
def VIRTIO_CONFIG_S_FAILED : Nat := 0x80

/-- `VIRTIO_F_VERSION_1` (virtio/mod.rs line 34): the bit *number*, 32. -/
def VIRTIO_F_VERSION_1 : Nat := 32

/-- The `VirtioDevice` fields consulted by the Status handshake
(virtio/mod.rs lines 69-83); the per-device `cfg` trait object and the
channels of the virtqueue managers are outside this slice (`qready` keeps
one ready flag per virtqueue). -/
structure VirtioDevSt where
  dev_feat : Nat  -- u64, features offered by the device
  dri_feat : Nat  -- u64, features accepted by the driver
  status : Nat    -- u8
  isr : Nat       -- u32
  qready : List Nat

/-- `VirtioDevice::verify_feat` (virtio/mod.rs lines 86-94): the accepted
set must contain `VIRTIO_F_VERSION_1` and may not exceed the offered set
(`dri_feat & !dev_feat` on `u64`). -/
def verify_feat (d : VirtioDevSt) : Except String Unit :=
  if d.dri_feat &&& (1 <<< VIRTIO_F_VERSION_1) = 0 then
    .error "A driver must accept the VIRTIO_F_VERSION_1 feature bit"
  else if d.dri_feat &&& (0xffffffffffffffff ^^^ d.dev_feat) ≠ 0 then
    .error "driver activated features that are not supported by the device"
  else
    .ok ()

/-- `VirtioMmioDev::reset` (virtio/mmio.rs lines 109-117) restricted to this
state slice (the per-device `cfg.reset()` is outside it). -/
def resetDev (d : VirtioDevSt) : VirtioDevSt :=
  { d with dri_feat := 0, status := 0, isr := 0,
           qready := d.qready.map (fun _ => 0) }

/-- The `VIRTIO_MMIO_STATUS` arm of `virtio_mmio_write` (virtio/mmio.rs
lines 324-375), translated branch for branch.  `value` is the stored `u32`
cast to `u8`; zero resets the device; clearing status bits or writing after
`FAILED` is only logged (the store still happens, as in the source, whose
final `mmio_dev.dev.status = value` is unconditional); the
`ACKNOWLEDGE ∧ DRIVER ∧ FEATURES_OK(value) ∧ ¬FEATURES_OK(status)` branch
re-verifies the accepted features, clearing `FEATURES_OK` from the stored
value if `verify_feat` fails, and clearing `DRIVER_OK` if set together with
`FEATURES_OK` (`!x` on `u8` is `0xff ^^^ x`). -/
def virtio_mmio_write_status (d : VirtioDevSt) (v : Nat) : VirtioDevSt :=
  let value := v &&& 0xff
  if value = 0 then
    let d := resetDev d
    { d with status := value }
  else if d.status &&& (0xff ^^^ value) ≠ 0 then
    { d with status := value }
  else if d.status &&& VIRTIO_CONFIG_S_FAILED ≠ 0 ∧ d.status ≠ value then
    { d with status := value }
  else
    let value :=
      if value &&& VIRTIO_CONFIG_S_ACKNOWLEDGE ≠ 0 then
        if value &&& VIRTIO_CONFIG_S_DRIVER ≠ 0 then
          if value &&& VIRTIO_CONFIG_S_FEATURES_OK ≠ 0 then
            if d.status &&& VIRTIO_CONFIG_S_FEATURES_OK ≠ 0 then
              value
            else
              let value :=
                if (verify_feat d).isOk then value
                else value &&& (0xff ^^^ VIRTIO_CONFIG_S_FEATURES_OK)
              if value &&& VIRTIO_CONFIG_S_DRIVER_OK ≠ 0 then
                value &&& (0xff ^^^ VIRTIO_CONFIG_S_DRIVER_OK)
              else value
          else value
        else value
      else value
    { d with status := value }

/-- The three-step driver handshake of claim C4 on a freshly reset device:
Status writes of `ACKNOWLEDGE`, then `ACKNOWLEDGE|DRIVER`, then
`ACKNOWLEDGE|DRIVER|FEATURES_OK`. -/
def statusHandshake (dev_feat dri_feat isr : Nat) (qready : List Nat) : VirtioDevSt :=
  virtio_mmio_write_status
    (virtio_mmio_write_status
      (virtio_mmio_write_status (VirtioDevSt.mk dev_feat dri_feat 0 isr qready) 1) 3) 11

end Virtio

/-- Counterexample to claim C4: with `dri_feat = 1 <<< 32` (bit 32 — the
`VIRTIO_F_VERSION_1` bit — *is* included) but `dev_feat = 0`, the handshake
still ends with `FEATURES_OK` cleared (`status = 3`), because `verify_feat`
also rejects accepted features the device did not offer.  The claim asserts
`FEATURES_OK` remains set whenever `dri_feat` includes bit 32. -/
theorem virtio_handshake_version1_not_sufficient :
    ((1 <<< 32 : Nat) &&& (1 <<< 32) ≠ 0) ∧
    (Virtio.statusHandshake 0 (1 <<< 32) 0 []).status = 3 ∧
    (Virtio.statusHandshake 0 (1 <<< 32) 0 []).status
        &&& Virtio.VIRTIO_CONFIG_S_FEATURES_OK = 0 := by
  refine ⟨by decide, by decide, by decide⟩

/-- Claim C4 as amended: on a freshly reset virtio-mmio device, the driver
sequence writing `ACKNOWLEDGE`, then `ACKNOWLEDGE|DRIVER`, then
`ACKNOWLEDGE|DRIVER|FEATURES_OK` to `Status` succeeds with `FEATURES_OK`
remaining set (stored status `0xb`) when the accepted set `dri_feat`
includes bit 32 (`VIRTIO_F_VERSION_1`) *and* contains no feature the device
did not offer (`dri_feat & !dev_feat == 0`, `verify_feat`'s second check);
with `dri_feat` lacking bit 32 the status is still stored but its
`FEATURES_OK` bit is cleared (stored status `0x3`). -/
theorem virtio_status_handshake (dev_feat dri_feat isr : Nat) (qready : List Nat) :
    (dri_feat &&& (1 <<< 32) ≠ 0 →
      dri_feat &&& (0xffffffffffffffff ^^^ dev_feat) = 0 →
      (Virtio.statusHandshake dev_feat dri_feat isr qready).status = 0xb) ∧
    (dri_feat &&& (1 <<< 32) = 0 →
      (Virtio.statusHandshake dev_feat dri_feat isr qready).status = 0x3 ∧
      (Virtio.statusHandshake dev_feat dri_feat isr qready).status
          &&& Virtio.VIRTIO_CONFIG_S_FEATURES_OK = 0) := by
  have h1 : Virtio.virtio_mmio_write_status
      (Virtio.VirtioDevSt.mk dev_feat dri_feat 0 isr qready) 1 =
      Virtio.VirtioDevSt.mk dev_feat dri_feat 1 isr qready := by
    unfold Virtio.virtio_mmio_write_status
    simp [Virtio.VIRTIO_CONFIG_S_ACKNOWLEDGE, Virtio.VIRTIO_CONFIG_S_DRIVER,
      Virtio.VIRTIO_CONFIG_S_DRIVER_OK, Virtio.VIRTIO_CONFIG_S_FEATURES_OK,
      Virtio.VIRTIO_CONFIG_S_FAILED]
  have h2 : Virtio.virtio_mmio_write_status
      (Virtio.VirtioDevSt.mk dev_feat dri_feat 1 isr qready) 3 =
      Virtio.VirtioDevSt.mk dev_feat dri_feat 3 isr qready := by
    unfold Virtio.virtio_mmio_write_status
    simp [Virtio.VIRTIO_CONFIG_S_ACKNOWLEDGE, Virtio.VIRTIO_CONFIG_S_DRIVER,
      Virtio.VIRTIO_CONFIG_S_DRIVER_OK, Virtio.VIRTIO_CONFIG_S_FEATURES_OK,
      Virtio.VIRTIO_CONFIG_S_FAILED,
      (by decide : (3 : Nat) &&& 255 = 3), (by decide : (255 : Nat) ^^^ 3 = 252),
      (by decide : (1 : Nat) &&& 252 = 0), (by decide : (1 : Nat) &&& 128 = 0),
      (by decide : (3 : Nat) &&& 1 = 1), (by decide : (3 : Nat) &&& 2 = 2),
      (by decide : (3 : Nat) &&& 8 = 0)]
  have hstep : Virtio.statusHandshake dev_feat dri_feat isr qready =
      Virtio.virtio_mmio_write_status
        (Virtio.VirtioDevSt.mk dev_feat dri_feat 3 isr qready) 11 := by
    unfold Virtio.statusHandshake
    rw [h1, h2]
  constructor
  · intro hbit hsub
    have hver : (Virtio.verify_feat
        (Virtio.VirtioDevSt.mk dev_feat dri_feat 3 isr qready)).isOk = true := by
      unfold Virtio.verify_feat
      rw [if_neg ?hb, if_neg ?hs]
      · rfl
      case hb => simpa [Virtio.VIRTIO_F_VERSION_1] using hbit
      case hs => simpa using hsub
    rw [hstep]
    unfold Virtio.virtio_mmio_write_status
    simp [Virtio.VIRTIO_CONFIG_S_ACKNOWLEDGE, Virtio.VIRTIO_CONFIG_S_DRIVER,
      Virtio.VIRTIO_CONFIG_S_DRIVER_OK, Virtio.VIRTIO_CONFIG_S_FEATURES_OK,
      Virtio.VIRTIO_CONFIG_S_FAILED, hver,
      (by decide : (11 : Nat) &&& 255 = 11), (by decide : (255 : Nat) ^^^ 11 = 244),
      (by decide : (3 : Nat) &&& 244 = 0), (by decide : (3 : Nat) &&& 128 = 0),
      (by decide : (11 : Nat) &&& 1 = 1), (by decide : (11 : Nat) &&& 2 = 2),
      (by decide : (11 : Nat) &&& 8 = 8), (by decide : (3 : Nat) &&& 8 = 0),
      (by decide : (11 : Nat) &&& 4 = 0)]
  · intro hbit
    have hver : (Virtio.verify_feat
        (Virtio.VirtioDevSt.mk dev_feat dri_feat 3 isr qready)).isOk = false := by
      unfold Virtio.verify_feat
      rw [if_pos (by simpa [Virtio.VIRTIO_F_VERSION_1] using hbit)]
      rfl
    rw [hstep]
    unfold Virtio.virtio_mmio_write_status
    simp [Virtio.VIRTIO_CONFIG_S_ACKNOWLEDGE, Virtio.VIRTIO_CONFIG_S_DRIVER,
      Virtio.VIRTIO_CONFIG_S_DRIVER_OK, Virtio.VIRTIO_CONFIG_S_FEATURES_OK,
      Virtio.VIRTIO_CONFIG_S_FAILED, hver,
      (by decide : (11 : Nat) &&& 255 = 11), (by decide : (255 : Nat) ^^^ 11 = 244),
      (by decide : (3 : Nat) &&& 244 = 0), (by decide : (3 : Nat) &&& 128 = 0),
      (by decide : (11 : Nat) &&& 1 = 1), (by decide : (11 : Nat) &&& 2 = 2),
      (by decide : (11 : Nat) &&& 8 = 8), (by decide : (3 : Nat) &&& 8 = 0),
      (by decide : (255 : Nat) ^^^ 8 = 247), (by decide : (11 : Nat) &&& 247 = 3),
      (by decide : (3 : Nat) &&& 4 = 0)]

/-- Witness for C4's amended theorem: `dev_feat = dri_feat = 1 <<< 32`
(exactly `VIRTIO_F_VERSION_1` offered and accepted) ends the handshake with
status `0xb`, and `dri_feat = 0` ends it with status `0x3`. -/
theorem virtio_status_handshake_witness :
    (Virtio.statusHandshake (1 <<< 32) (1 <<< 32) 0 []).status = 0xb ∧
    (Virtio.statusHandshake (1 <<< 32) 0 0 []).status = 0x3 := by
  constructor
  · exact (virtio_status_handshake (1 <<< 32) (1 <<< 32) 0 []).1
      (by decide) (by decide)
  · exact ((virtio_status_handshake (1 <<< 32) 0 0 []).2 (by decide)).1

namespace Decode

/-!  `src/xhype/xhype/src/decode.rs` — the MMIO-emulation instruction
decoder.  Instruction bytes are a `List Nat`; a Rust slice index past the
end (a panic) is `.indexOob`, `unimplemented!()` is `.unimplementedStop`,
and `Error::Program(msg)` is `.program msg`. -/

inductive DecodeErr where
  | program (msg : String)
  | indexOob
  | unimplementedStop

/-- `X86Decode` (decode.rs lines 10-22). -/
structure X86Decode where
  prefix_sz : Nat
  opcode_sz : Nat
  modrm_sib_sz : Nat
  imm_sz : Nat
  operand_bytes : Nat
  address_bytes : Nat
  has_modrm : Bool
  is_store : Bool
  rex_r : Bool
  rex_x : Bool
  rex_b : Bool

/-- `X86Decode::default` (decode.rs lines 24-40). -/
def X86Decode.default : X86Decode :=
  { prefix_sz := 0, opcode_sz := 1, modrm_sib_sz := 0, imm_sz := 0,
    operand_bytes := 4, address_bytes := 8, has_modrm := true,
    is_store := false, rex_r := false, rex_x := false, rex_b := false }

/-- The prefix-scanning loop of `decode_prefix` (decode.rs lines 42-78):
`0x66` halves a 4-byte operand, `0x67` selects 4 address bytes, `0x4_`
is a REX prefix; the first other byte stops the scan.  Returns the updated
decode state and the number of prefix bytes consumed. -/
def decodePrefixGo : List Nat → X86Decode → Nat → X86Decode × Nat
  | [], d, n => (d, n)
  | byte :: rest, d, n =>
    if byte = 0x66 then
      let d := if d.operand_bytes = 4 then { d with operand_bytes := 2 } else d
      decodePrefixGo rest d (n + 1)
    else if byte = 0x67 then
      decodePrefixGo rest { d with address_bytes := 4 } (n + 1)
    else if byte &&& 0xf0 = 0x40 then
      let d := if byte &&& 0x08 ≠ 0 then { d with operand_bytes := 8 } else d
      let d := if byte &&& 0x04 ≠ 0 then { d with rex_r := true } else d
      let d := if byte &&& 0x02 ≠ 0 then { d with rex_x := true } else d
      let d := if byte &&& 0x01 ≠ 0 then { d with rex_b := true } else d
      decodePrefixGo rest d (n + 1)
    else
      (d, n)

/-- `decode_prefix` (decode.rs lines 42-78). -/
def decodePrefix (insn : List Nat) (d : X86Decode) : X86Decode :=
  let r := decodePrefixGo insn d 0
  { r.1 with prefix_sz := r.2 }

/-- `get_modrm` (decode.rs lines 80-86). -/
def get_modrm (insn : List Nat) (d : X86Decode) : Except DecodeErr Nat :=
  if d.has_modrm then
    match insn.get? (d.prefix_sz + d.opcode_sz) with
    | some b => .ok b
    | none => .error .indexOob
  else
    .error (.program "No modrm")

/-- `modrm_get_reg` (decode.rs lines 88-108). -/
def modrm_get_reg (insn : List Nat) (d : X86Decode) : Except DecodeErr Nat := do
  let modrm ← get_modrm insn d
  let reg := (modrm >>> 3) &&& 7
  if d.address_bytes = 2 then
    .ok reg
  else if d.address_bytes = 4 ∨ d.address_bytes = 8 then
    if d.rex_r then .ok (reg + 8) else .ok reg
  else
    .error (.program "decode: wrong address bytes")

/-- `modrm_sib_bytes_16` (decode.rs lines 110-128). -/
def modrm_sib_bytes_16 (mod_ rm : Nat) : Nat :=
  1 + (match mod_ with
       | 0 => if rm = 6 then 2 else 0
       | 1 => 1 + (if rm = 4 then 1 else 0)
       | 2 => 2
       | _ => 0)

/-- `modrm_sib_bytes_32` (decode.rs lines 130-155). -/
def modrm_sib_bytes_32 (mod_ rm : Nat) : Nat :=
  1 + (match mod_ with
       | 0 => if rm = 4 then 1 else if rm = 5 then 4 else 0
       | 1 => 1 + (if rm = 4 then 1 else 0)
       | 2 => 4 + (if rm = 4 then 1 else 0)
       | _ => 0)

/-- `modrm_sib_bytes` (decode.rs lines 157-169). -/
def modrm_sib_bytes (insn : List Nat) (d : X86Decode) : Except DecodeErr Nat := do
  let modrm ← get_modrm insn d
  let m := modrm >>> 6
  let rm := modrm &&& 0x7
  if d.address_bytes = 2 then
    .ok (modrm_sib_bytes_16 m rm)
  else if d.address_bytes = 4 ∨ d.address_bytes = 8 then
    .ok (modrm_sib_bytes_32 m rm)
  else
    .error (.program "wrong address bytes")

/-- `decode_opcode` (decode.rs lines 171-210), translated arm for arm; in
particular `0x0f 0xb6`/`0x0f 0xb7` (MOVZX) set `opcode_sz := 2` and
`operand_bytes := 1`/`2`.  `reg` is the lazily forced `modrm_get_reg`
result, exactly as the Rust `let reg = modrm_get_reg(insn, &decode);`
followed by `reg?` inside the arms. -/
def decode_opcode (insn : List Nat) (d : X86Decode) : Except DecodeErr X86Decode := do
  let opcodes := insn.drop d.prefix_sz
  let reg := modrm_get_reg insn d
  let b0 ← match opcodes.get? 0 with
           | some b => Except.ok b
           | none => Except.error DecodeErr.indexOob
  let d ←
    if b0 = 0x80 then
      match reg with
      | .ok 0 => pure { d with imm_sz := 1, operand_bytes := 1 }
      | .ok 7 => pure { d with imm_sz := 1, operand_bytes := 1 }
      | .ok _ => Except.error (.program "unknown opcode")
      | .error e => Except.error e
    else if b0 = 0x81 then
      match reg with
      | .ok 0 => pure { d with imm_sz := if d.address_bytes = 2 then 2 else 4 }
      | .ok 7 => pure { d with imm_sz := if d.address_bytes = 2 then 2 else 4 }
      | .ok _ => Except.error (.program "unknown opcode")
      | .error e => Except.error e
    else if b0 = 0x3a then
      pure { d with operand_bytes := 1 }
    else if b0 = 0x88 ∨ b0 = 0x8a then
      pure { d with operand_bytes := 1, is_store := b0 &&& 2 = 0 }
    else if b0 = 0x89 ∨ b0 = 0x8b then
      pure { d with is_store := b0 &&& 2 = 0 }
    else if b0 = 0x0f then
      let d := { d with opcode_sz := 2 }
      match opcodes.get? 1 with
      | some 0xb7 => pure { d with operand_bytes := 2 } -- movzw
      | some 0xb6 => pure { d with operand_bytes := 1 } -- movzb
      | some _ => Except.error (.program "unknown opcode")
      | none => Except.error DecodeErr.indexOob
    else
      Except.error (.program "unknown opcode")
  let sib ← modrm_sib_bytes insn d
  pure { d with modrm_sib_sz := sib }

/-- The memory-access callback of `emulate_mem_insn` (`MemAccessFn`,
decode.rs line 7): given the faulting GPA, the register value, the access
size and the store flag, it returns the (possibly updated) register value,
or `none` when the device access fails. -/
def MemAccessFn : Type :=
  Nat → Nat → Nat → Bool → Option Nat

/-- `execute_op` (decode.rs lines 223-261) over a register file indexed by
the x86 register number (`get_guest_reg`, defined in the absent `hv::vmx`
module, maps that number to the register enum; the file models registers
directly by number).  Note the arm list: only `0x80/0x81` and the four MOV
opcodes are executed — `0x0f` falls through to `unknown`. -/
def execute_op (regFile : Nat → Nat) (insn : List Nat) (d : X86Decode)
    (access : MemAccessFn) (gpa : Nat) : Except DecodeErr (Nat → Nat) := do
  let opcodes := insn.drop d.prefix_sz
  let mod_reg := modrm_get_reg insn d
  let b0 ← match opcodes.get? 0 with
           | some b => Except.ok b
           | none => Except.error DecodeErr.indexOob
  if b0 = 0x80 ∨ b0 = 0x81 then
    match mod_reg with
    | .ok 0 => Except.error (.program "add_8081 unimplemented")
    | .ok 7 => Except.error DecodeErr.unimplementedStop
    | .ok _ => Except.error (.program "unknown opcode")
    | .error e => Except.error e
  else if b0 = 0x88 ∨ b0 = 0x89 ∨ b0 = 0x8a ∨ b0 = 0x8b then do
    let reg ← mod_reg
    let reg_value := regFile reg
    match access gpa reg_value d.operand_bytes d.is_store with
    | none => Except.error (.program "mem access failed")
    | some new_value =>
      if !d.is_store then
        let new_value := if d.operand_bytes = 4 then new_value &&& 0xffffffff
                         else new_value
        pure (pupd regFile reg new_value)
      else
        pure regFile
  else
    Except.error (.program "unknown opcode")

/-- `emulate_mem_insn` (decode.rs lines 263-283). -/
def emulate_mem_insn (regFile : Nat → Nat) (insn : List Nat)
    (access : MemAccessFn) (gpa : Nat) : Except DecodeErr (Nat → Nat) := do
  let d := X86Decode.default
  let d := decodePrefix insn d
  let d ← decode_opcode insn d
  execute_op regFile insn d access gpa

end Decode

/-- Claim C7 is false of the code (code bug): MOVZX instructions
(`0F B6`/`0F B7`) are decoded by `decode_opcode` (operand size 1 and 2
respectively), but `execute_op` has no `0x0f` arm, so `emulate_mem_insn`
returns `Program("unknown opcode")` for them instead of performing the
access — for every callback, here evaluated at `movzx eax, byte [rax]`
(`0F B6 00`) and `movzx eax, word [rax]` (`0F B7 00`) with a callback that
returns `0x5a`. -/
theorem movzx_decoded_but_not_executed :
    ((Decode.decode_opcode [0x0f, 0xb6, 0x00]
        (Decode.decodePrefix [0x0f, 0xb6, 0x00] Decode.X86Decode.default)).map
      (fun d => d.operand_bytes) = .ok 1) ∧
    ((Decode.decode_opcode [0x0f, 0xb7, 0x00]
        (Decode.decodePrefix [0x0f, 0xb7, 0x00] Decode.X86Decode.default)).map
      (fun d => d.operand_bytes) = .ok 2) ∧
    Decode.emulate_mem_insn (fun _ => 0) [0x0f, 0xb6, 0x00]
        (fun _ _ _ _ => some 0x5a) 0x1000 = .error (.program "unknown opcode") ∧
    Decode.emulate_mem_insn (fun _ => 0) [0x0f, 0xb7, 0x00]
        (fun _ _ _ _ => some 0x5a) 0x1000 = .error (.program "unknown opcode") :=
  ⟨rfl, rfl, rfl, rfl⟩
